import Mathlib

/-!
Verification of the behavioural contract of the patient-management API in
src/main.py (FastAPI + pydantic v2).  Python dicts are modelled as
insertion-ordered association lists, JSON scalars as an inductive value
type, floats as exact rationals, and each request handler as a pure
function from the loaded collection to either a result (with the
collection to be saved) or a raised exception.
-/

/-- A JSON scalar value as stored in patients.json: a string, a number
(ints and floats both modelled as exact rationals), or null. -/
inductive JValue where
  | s (v : String)
  | n (v : ℚ)
  | null
  deriving DecidableEq, Repr

/-- A Python dict with string keys, modelled as an insertion-ordered
association list (CPython dicts preserve insertion order). -/
abbrev PyDict (β : Type) := List (String × β)

/-- Dict lookup `d[k]` / `d.get(k)`: the binding of `k` (keys are unique
in a Python dict, so matching the first binding is exact). -/
def pyGet? {β : Type} (d : PyDict β) (k : String) : Option β :=
  match d with
  | [] => none
  | kv :: rest => if kv.1 = k then some kv.2 else pyGet? rest k

/-- Python `k in d`. -/
def pyHasKey {β : Type} (d : PyDict β) (k : String) : Bool :=
  (pyGet? d k).isSome

/-- Python `d[k] = v`: overwrite in place when the key exists (keeping its
position), otherwise append at the end. -/
def pySet {β : Type} (d : PyDict β) (k : String) (v : β) : PyDict β :=
  match d with
  | [] => [(k, v)]
  | kv :: rest => if kv.1 = k then (k, v) :: rest else kv :: pySet rest k v

/-- Python `del d[k]` and `d.pop(k, None)`: drop the binding for `k`. -/
def pyPop {β : Type} (d : PyDict β) (k : String) : PyDict β :=
  match d with
  | [] => []
  | kv :: rest => if kv.1 = k then pyPop rest k else kv :: pyPop rest k

/-- Python `d.values()` in insertion order. -/
def pyValues {β : Type} (d : PyDict β) : List β :=
  d.map Prod.snd

/-- A stored record value in patients.json. -/
abbrev JObj := PyDict JValue

/-- The whole persisted collection: patient id to record value. -/
abbrev DB := PyDict JObj

/-- An exception raised by a handler: `HTTPException(status, detail)`
(turned by FastAPI into an error response), a pydantic `ValidationError`,
or a `TypeError` (both of the latter surface as a server error).  In every
case the handler aborts before `save_data`, so the persisted collection is
unchanged. -/
inductive PyErr where
  | httpException (status : Nat) (detail : String)
  | validationError
  | typeError (msg : String)
  deriving DecidableEq, Repr

/-- Outcome of one request: either the collection as persisted at the end
of the handler together with the response payload, or a raised exception. -/
abbrev HResult (ρ : Type) := Except PyErr (DB × ρ)

/-- The persisted collection after the request: handlers only call
`save_data` on their success path, so an exception leaves the file as it
was. -/
def finalDb {ρ : Type} (db : DB) : HResult ρ → DB
  | .ok (db₁, _) => db₁
  | .error _ => db

/-- Whether the request raised. -/
def isErr {ρ : Type} : HResult ρ → Bool
  | .ok _ => false
  | .error _ => true

/-- The `Patient` pydantic model of main.py (its declared input fields). -/
structure Patient where
  id : String
  name : String
  city : String
  age : ℤ
  gender : String
  height : ℚ
  weight : ℚ
  deriving DecidableEq, Repr

/-- Round a rational to the nearest integer, ties to even — the rounding
CPython `round` uses (modelled on exact rationals rather than binary
doubles). -/
def roundHalfEven (x : ℚ) : ℤ :=
  let f := ⌊x⌋
  if x - f < 1/2 then f
  else if 1/2 < x - f then f + 1
  else if Even f then f else f + 1

/-- Python `round(x, 2)` on exact rationals. -/
def pyRound2 (x : ℚ) : ℚ :=
  (roundHalfEven (x * 100) : ℚ) / 100

/-- The computed field `bmi` of the `Patient` model:
`round(self.weight / (self.height ** 2), 2)`. -/
def Patient.bmi (p : Patient) : ℚ :=
  pyRound2 (p.weight / p.height ^ 2)

/-- The computed field `verdict` of the `Patient` model: first matching
band of the rounded bmi. -/
def Patient.verdict (p : Patient) : String :=
  if p.bmi < 18.5 then "Underweight"
  else if p.bmi < 25 then "Normal weight"
  else if p.bmi < 30 then "Overweight"
  else "Obese"

/-- The allowed `gender` literals. -/
def validGender (g : String) : Bool :=
  g == "Male" || g == "Female" || g == "Other"

/-- The field constraints pydantic enforces on a `Patient`
(`age` in 1..120, `gender` a listed literal, `height` and `weight`
positive; `id`, `name`, `city` are unconstrained strings). -/
def Patient.validB (p : Patient) : Bool :=
  decide (0 < p.age) && decide (p.age ≤ 120) && validGender p.gender
    && decide (0 < p.height) && decide (0 < p.weight)

/-- The argument shapes main.py passes for the `exclude` parameter of
`model_dump`. -/
inductive IncEx where
  | set (ks : List String)
  | str (v : String)
  deriving DecidableEq, Repr

/-- pydantic `Patient.model_dump(exclude=...)`.  The dump contains every
declared field and, after them, the `@computed_field` properties `bmi` and
`verdict` (pydantic v2 serializes computed fields).  pydantic-core accepts
only a set or a dict for `exclude`; any other value — in particular the
plain string `"id"` used by main.py — raises
`TypeError: exclude argument must be a set or dict.` while filtering the
first field. -/
def Patient.model_dump (p : Patient) (exclude : Option IncEx) : Except PyErr JObj :=
  let full : JObj :=
    [("id", .s p.id), ("name", .s p.name), ("city", .s p.city),
     ("age", .n (p.age : ℚ)), ("gender", .s p.gender),
     ("height", .n p.height), ("weight", .n p.weight),
     ("bmi", .n p.bmi), ("verdict", .s p.verdict)]
  match exclude with
  | none => .ok full
  | some (.set ks) => .ok (full.filter (fun kv => !(ks.contains kv.1)))
  | some (.str _) => .error (.typeError "exclude argument must be a set or dict.")

/-- Read a string-valued key. -/
def getStr (j : JObj) (k : String) : Option String :=
  match pyGet? j k with
  | some (.s v) => some v
  | _ => none

/-- Read a number-valued key. -/
def getNum (j : JObj) (k : String) : Option ℚ :=
  match pyGet? j k with
  | some (.n v) => some v
  | _ => none

/-- Read an integer-valued key (an int, or a float with no fractional
part, which lax-mode pydantic also accepts for an int field). -/
def getInt (j : JObj) (k : String) : Option ℤ :=
  match pyGet? j k with
  | some (.n v) => if v.den == 1 then some v.num else none
  | _ => none

/-- pydantic validation `Patient(**d)`: every declared field must be
present with the right type and satisfy its constraint, extra keys are
ignored (default extra handling), and any violation raises
`ValidationError`.  String-to-number lax coercions are not modelled. -/
def parsePatient (j : JObj) : Except PyErr Patient :=
  match getStr j "id", getStr j "name", getStr j "city", getInt j "age",
      getStr j "gender", getNum j "height", getNum j "weight" with
  | some i, some nm, some ct, some ag, some gd, some ht, some wt =>
    if 0 < ag ∧ ag ≤ 120 ∧ validGender gd = true ∧ 0 < ht ∧ 0 < wt then
      .ok ⟨i, nm, ct, ag, gd, ht, wt⟩
    else .error .validationError
  | _, _, _, _, _, _, _ => .error .validationError

/-- Detail string of the 404 raised for an unknown patient id. -/
def patientNotFound : PyErr := .httpException 404 "Patient not found"

/-- Handler of `GET /` in main.py (note the key is spelled "massage"). -/
def hello : JObj := [("massage", .s "Patient Management System API")]

/-- Handler of `GET /about` in main.py (key spelled "massage"). -/
def about : JObj := [("massage", .s "A fully functional API for managing patient records.")]

/-- Handler of `GET /view`: return the loaded collection as is. -/
def view (db : DB) : HResult DB := .ok (db, db)

/-- Handler of `GET /patient/patient_id` (`view_patient` in main.py):
return the stored value `data[patient_id]` unchanged, or raise 404. -/
def view_patient (pid : String) (db : DB) : HResult JObj :=
  match pyGet? db pid with
  | some r => .ok (db, r)
  | none => .error patientNotFound

/-- The `valid_fields` list of `sort_patient`. -/
def valid_fields : List String := ["height", "weight", "bmi"]

/-- The sort key `x.get(sort_by, 0)` of one record. -/
def jkeyVal (sortBy : String) (o : JObj) : JValue :=
  (pyGet? o sortBy).getD (.n 0)

/-- Whether a JSON value is a number. -/
def isNumV : JValue → Bool
  | .n _ => true
  | _ => false

/-- The numeric content of a JSON value (only used on numbers). -/
def numV : JValue → ℚ
  | .n q => q
  | _ => 0

/-- The numeric sort key of one record. -/
def qkey (sortBy : String) (o : JObj) : ℚ :=
  numV (jkeyVal sortBy o)

/-- The record comparator realized by Python sorted with the given key
function and `reverse` flag: `a` may precede `b` exactly when this holds,
so equal keys leave the original order in place (Timsort is stable, and
`reverse=True` gives the stable non-increasing order). -/
def leKey (sortBy : String) (rev : Bool) (a b : JObj) : Bool :=
  if rev then decide (qkey sortBy b ≤ qkey sortBy a)
  else decide (qkey sortBy a ≤ qkey sortBy b)

/-- Python `sorted(l, key=lambda x: x.get(sort_by, 0), reverse=rev)`: a
stable sort by the key.  CPython raises `TypeError` while comparing when
the keys are not mutually comparable; the embedding checks up front that
every key (default 0 included) is a number, which is the only case the
spec constrains. -/
def pySorted (sortBy : String) (rev : Bool) (l : List JObj) : Except PyErr (List JObj) :=
  if l.all (fun o => isNumV (jkeyVal sortBy o)) then
    .ok (l.mergeSort (leKey sortBy rev))
  else .error (.typeError "unorderable types")

/-- Handler of `GET /sort` (`sort_patient` in main.py): 404 on a bad
`sort_by` or `order`, otherwise the sorted values of the collection. -/
def sort_patient (sortBy ord : String) (db : DB) : HResult (List JObj) :=
  if !(valid_fields.contains sortBy) then
    .error (.httpException 404 "The input is not valid")
  else if !(["asc", "desc"].contains ord) then
    .error (.httpException 404 "The input is not valid")
  else
    match pySorted sortBy (ord == "desc") (pyValues db) with
    | .ok l => .ok (db, l)
    | .error e => .error e

/-- Handler of `POST /create` (`create_patient` in main.py): 401 when the
id is already a key, otherwise store `patient.model_dump(exclude="id")`
and save.  The dump raises `TypeError` (string exclude), so the success
path aborts before the insert. -/
def create_patient (p : Patient) (db : DB) : HResult (Nat × JObj) :=
  if pyHasKey db p.id then
    .error (.httpException 401 "The patient is already exists")
  else
    match p.model_dump (some (.str "id")) with
    | .error e => .error e
    | .ok pd => .ok (pySet db p.id pd, (201, [("massage", .s "Patient created successfully")]))

/-- The six optional fields of the `UpdatePatient` model; the dump
`patient_update.model_dump(exclude_unset=True)` keeps exactly the supplied
ones, and unknown body keys never reach the model. -/
def updateFields : List String := ["name", "city", "age", "gender", "height", "weight"]

/-- `patient_update.model_dump(exclude_unset=True)` for a request body
given as the set of supplied fields. -/
def updateDump (body : JObj) : JObj :=
  body.filter (fun kv => updateFields.contains kv.1)

/-- The dict `update_patient` builds before revalidating: supplied fields
written over the stored ones, `id` reattached, `bmi` and `verdict`
popped. -/
def mergedForValidation (pid : String) (body : JObj) (stored : JObj) : JObj :=
  let m := (updateDump body).foldl (fun acc kv => pySet acc kv.1 kv.2) stored
  pyPop (pyPop (pySet m "id" (.s pid)) "bmi") "verdict"

/-- Handler of `PUT /edit/patient_id` (`update_patient` in main.py): 404
when the id is absent; otherwise merge, revalidate as a `Patient`, then
store `patient_obj.model_dump(exclude="id")` — which raises `TypeError`
(string exclude) before the store and save. -/
def update_patient (pid : String) (body : JObj) (db : DB) : HResult (Nat × JObj) :=
  match pyGet? db pid with
  | none => .error patientNotFound
  | some stored =>
    match parsePatient (mergedForValidation pid body stored) with
    | .error e => .error e
    | .ok pobj =>
      match pobj.model_dump (some (.str "id")) with
      | .error e => .error e
      | .ok pd => .ok (pySet db pid pd, (200, [("massage", .s "Patient updated successfully")]))

/-- Handler of `DELETE /delete/patient_id` (`delete_patient` in main.py):
404 when the id is absent, otherwise remove the entry and save. -/
def delete_patient (pid : String) (db : DB) : HResult (Nat × JObj) :=
  if pyHasKey db pid then
    .ok (pyPop db pid, (200, [("massage", .s "Patient deleted successfully")]))
  else .error patientNotFound

/-- The height 1.75 of the sample patient, as a normal-form rational. -/
def h175 : ℚ := Rat.mk' 7 4

/-- The stored value of the sample patient of the spec scenario, in the
persisted layout the spec describes (the six input fields). -/
def ashaStored : JObj :=
  [("name", .s "Asha"), ("city", .s "Pune"), ("age", .n 30),
   ("gender", .s "Male"), ("height", .n h175), ("weight", .n 70)]

/-- A one-record collection holding the sample patient. -/
def db0 : DB := [("P001", ashaStored)]

/-- The sample patient of the spec scenario as a `Patient` value. -/
def asha : Patient := ⟨"P001", "Asha", "Pune", 30, "Male", h175, 70⟩

/-- Whether no stored record value contains an "id" key. -/
def noIdInside (db : DB) : Bool :=
  db.all (fun kv => (pyGet? kv.2 "id").isNone)

theorem pyGet_pyPop_self {β : Type} (d : PyDict β) (k : String) :
    pyGet? (pyPop d k) k = none := by
  induction d with
  | nil => rfl
  | cons kv rest ih =>
    simp only [pyPop]
    by_cases h : kv.1 = k
    · rw [if_pos h]; exact ih
    · rw [if_neg h]
      simp only [pyGet?]
      rw [if_neg h]
      exact ih

theorem pyGet_pyPop_ne {β : Type} (d : PyDict β) {k k₁ : String} (h : k₁ ≠ k) :
    pyGet? (pyPop d k) k₁ = pyGet? d k₁ := by
  induction d with
  | nil => rfl
  | cons kv rest ih =>
    simp only [pyPop]
    by_cases hk : kv.1 = k
    · rw [if_pos hk, ih]
      have hne : kv.1 ≠ k₁ := by
        rw [hk]
        exact fun e => h e.symm
      simp only [pyGet?]
      rw [if_neg hne]
    · rw [if_neg hk]
      simp only [pyGet?]
      by_cases hk₁ : kv.1 = k₁
      · rw [if_pos hk₁, if_pos hk₁]
      · rw [if_neg hk₁, if_neg hk₁]
        exact ih

theorem pyPop_sublist {β : Type} (d : PyDict β) (k : String) :
    (pyPop d k).Sublist d := by
  induction d with
  | nil => exact List.Sublist.refl []
  | cons kv rest ih =>
    simp only [pyPop]
    by_cases h : kv.1 = k
    · rw [if_pos h]; exact ih.cons kv
    · rw [if_neg h]; exact ih.cons₂ kv

theorem pyGet_pySet_self {β : Type} (d : PyDict β) (k : String) (v : β) :
    pyGet? (pySet d k v) k = some v := by
  induction d with
  | nil => simp [pySet, pyGet?]
  | cons kv rest ih =>
    simp only [pySet]
    by_cases hk : kv.1 = k
    · rw [if_pos hk]
      simp [pyGet?]
    · rw [if_neg hk]
      simp only [pyGet?]
      rw [if_neg hk]
      exact ih

theorem noIdInside_pyPop (db : DB) (h : noIdInside db = true) (k : String) :
    noIdInside (pyPop db k) = true := by
  simp only [noIdInside, List.all_eq_true] at h ⊢
  intro kv hkv
  exact h kv ((pyPop_sublist db k).mem hkv)

theorem create_patient_isErr (p : Patient) (db : DB) :
    isErr (create_patient p db) = true := by
  unfold create_patient
  split <;> rfl

theorem update_patient_isErr (pid : String) (body : JObj) (db : DB) :
    isErr (update_patient pid body db) = true := by
  unfold update_patient
  split
  · rfl
  · split <;> rfl

theorem finalDb_of_isErr {ρ : Type} (db : DB) (r : HResult ρ) (h : isErr r = true) :
    finalDb db r = db := by
  cases r with
  | ok a => simp [isErr] at h
  | error e => rfl

/-- C1: for every patient with height > 0 and weight > 0, `bmi` equals
`round(weight / height ** 2, 2)` and `verdict` is the first matching band
evaluated in order, with a `bmi` of exactly 18.5, 25 or 30 classified into
the upper band. -/
theorem spec_c1_bmi_and_verdict_bands (p : Patient)
    (hh : 0 < p.height) (hw : 0 < p.weight) :
    p.bmi = pyRound2 (p.weight / p.height ^ 2)
    ∧ (p.bmi < 18.5 → p.verdict = "Underweight")
    ∧ (18.5 ≤ p.bmi → p.bmi < 25 → p.verdict = "Normal weight")
    ∧ (25 ≤ p.bmi → p.bmi < 30 → p.verdict = "Overweight")
    ∧ (30 ≤ p.bmi → p.verdict = "Obese")
    ∧ (p.bmi = 18.5 → p.verdict = "Normal weight")
    ∧ (p.bmi = 25 → p.verdict = "Overweight")
    ∧ (p.bmi = 30 → p.verdict = "Obese") := by
  refine ⟨rfl, ?_, ?_, ?_, ?_, ?_, ?_, ?_⟩ <;>
    (intros
     unfold Patient.verdict
     split_ifs <;> first | rfl | linarith)

/-- Witness for C1 at the spec scenario patient (height 1.75, weight 70):
bmi 22.86 and verdict "Normal weight". -/
theorem spec_c1_witness : asha.bmi = 1143/50 ∧ asha.verdict = "Normal weight" := by
  have hheight : asha.height = 7/4 := by
    show Rat.mk' 7 4 = 7/4
    rw [Rat.mk_eq_divInt, Rat.divInt_eq_div]; norm_num
  have hweight : asha.weight = 70 := rfl
  have harg : asha.weight / asha.height ^ 2 = 1120/49 := by
    rw [hweight, hheight]; norm_num
  have hb : asha.bmi = 1143/50 := by
    show pyRound2 (asha.weight / asha.height ^ 2) = 1143/50
    rw [harg]
    simp only [pyRound2, roundHalfEven]
    norm_num
  have h := spec_c1_bmi_and_verdict_bands asha (by decide) (by decide)
  exact ⟨hb, h.2.2.1 (by rw [hb]; norm_num) (by rw [hb]; norm_num)⟩

/-- C2: the partial update that the spec says merges only `weight` instead
raises `TypeError` inside `model_dump(exclude="id")` after revalidating
the merged record, so nothing is persisted and the stored record keeps all
its old values (including the stale weight). -/
theorem spec_c2_update_weight_crashes :
    update_patient "P001" [("weight", .n 95)] db0
      = .error (.typeError "exclude argument must be a set or dict.")
    ∧ finalDb db0 (update_patient "P001" [("weight", .n 95)] db0) = db0 := by
  constructor
  · rfl
  · exact finalDb_of_isErr db0 _ (update_patient_isErr _ _ _)

/-- C3: creating an id already present fails with the 401 conflict and
leaves the collection unchanged, as claimed; but creating a fresh id,
which the claim says validates, inserts and persists, instead raises
`TypeError` from `model_dump(exclude="id")` before the insert, so the
collection is unchanged there too and no record is ever created. -/
theorem spec_c3_create_conflict_and_crash :
    create_patient asha db0 = .error (.httpException 401 "The patient is already exists")
    ∧ finalDb db0 (create_patient asha db0) = db0
    ∧ create_patient asha [] = .error (.typeError "exclude argument must be a set or dict.")
    ∧ finalDb [] (create_patient asha []) = [] :=
  ⟨rfl, finalDb_of_isErr _ _ (create_patient_isErr _ _), rfl,
   finalDb_of_isErr _ _ (create_patient_isErr _ _)⟩

/-- C5 counterexample: on a collection in the persisted layout the spec
itself describes (record values holding only the six input fields), the
get-by-id response is the stored value unchanged: it has no `id`, `bmi`
or `verdict` key, so the id is not reattached and no derived field is
included. -/
theorem spec_c5_counterexample :
    view_patient "P001" db0 = .ok (db0, ashaStored)
    ∧ pyGet? ashaStored "id" = none
    ∧ pyGet? ashaStored "bmi" = none
    ∧ pyGet? ashaStored "verdict" = none :=
  ⟨rfl, rfl, rfl, rfl⟩

/-- C5 amended: get-by-id returns the stored record value exactly as
persisted — nothing reattached, nothing recomputed — and raises 404 when
the id is absent. -/
theorem spec_c5_view_patient_raw (pid : String) (db : DB) :
    (∀ r, pyGet? db pid = some r → view_patient pid db = .ok (db, r))
    ∧ (pyGet? db pid = none →
        view_patient pid db = .error (.httpException 404 "Patient not found")) := by
  constructor
  · intro r h
    simp [view_patient, h]
  · intro h
    simp [view_patient, h, patientNotFound]

/-- Witness for the amended C5 on the sample collection. -/
theorem spec_c5_witness :
    view_patient "P001" db0 = .ok (db0, ashaStored)
    ∧ view_patient "P002" db0 = .error (.httpException 404 "Patient not found") :=
  ⟨(spec_c5_view_patient_raw "P001" db0).1 ashaStored rfl,
   (spec_c5_view_patient_raw "P002" db0).2 rfl⟩

/-- C6: no record value is ever written by create or update — both abort
with the `TypeError` of the string `exclude` before reaching `save_data` —
so no persisted record of any shape is produced by them. -/
theorem spec_c6_create_update_never_persist :
    (∀ (p : Patient) (db : DB),
        isErr (create_patient p db) = true ∧ finalDb db (create_patient p db) = db)
    ∧ (∀ (pid : String) (body : JObj) (db : DB),
        isErr (update_patient pid body db) = true
        ∧ finalDb db (update_patient pid body db) = db) := by
  constructor
  · intro p db
    exact ⟨create_patient_isErr p db, finalDb_of_isErr _ _ (create_patient_isErr p db)⟩
  · intro pid body db
    exact ⟨update_patient_isErr pid body db,
           finalDb_of_isErr _ _ (update_patient_isErr pid body db)⟩

/-- C7: deleting a present id removes exactly that entry (that id gone,
every other id untouched) and persists the result; a get on the deleted
id then raises 404; deleting an absent id raises 404 and performs no
write. -/
theorem spec_c7_delete (pid : String) (db : DB) :
    (pyHasKey db pid = true →
        delete_patient pid db
          = .ok (pyPop db pid, (200, [("massage", .s "Patient deleted successfully")]))
        ∧ pyGet? (pyPop db pid) pid = none
        ∧ (∀ k, k ≠ pid → pyGet? (pyPop db pid) k = pyGet? db k)
        ∧ view_patient pid (pyPop db pid) = .error (.httpException 404 "Patient not found"))
    ∧ (pyHasKey db pid = false →
        delete_patient pid db = .error (.httpException 404 "Patient not found")
        ∧ finalDb db (delete_patient pid db) = db) := by
  constructor
  · intro h
    refine ⟨by simp [delete_patient, h], pyGet_pyPop_self db pid,
            fun k hk => pyGet_pyPop_ne db hk, ?_⟩
    simp [view_patient, pyGet_pyPop_self db pid, patientNotFound]
  · intro h
    have he : delete_patient pid db = .error patientNotFound := by
      simp [delete_patient, h]
    exact ⟨he, by rw [he]; rfl⟩

/-- Witness for C7 on the sample collection. -/
theorem spec_c7_witness :
    delete_patient "P001" db0
      = .ok ([], (200, [("massage", .s "Patient deleted successfully")]))
    ∧ delete_patient "P002" db0 = .error (.httpException 404 "Patient not found") := by
  have h1 := (spec_c7_delete "P001" db0).1 (by rfl)
  have h2 := (spec_c7_delete "P002" db0).2 (by rfl)
  refine ⟨?_, h2.1⟩
  rw [h1.1]
  rfl

/-- C9 counterexample: neither the root nor the about response contains a
"message" key — main.py spells the key "massage" in both. -/
theorem spec_c9_counterexample :
    pyGet? hello "message" = none ∧ pyGet? about "message" = none :=
  ⟨rfl, rfl⟩

/-- C9 amended: both endpoints statically return a one-key object whose
key is the misspelling "massage", holding the greeting and the
description respectively. -/
theorem spec_c9_massage_key :
    pyGet? hello "massage" = some (.s "Patient Management System API")
    ∧ pyGet? about "massage" = some (.s "A fully functional API for managing patient records.")
    ∧ hello = [("massage", .s "Patient Management System API")]
    ∧ about = [("massage", .s "A fully functional API for managing patient records.")] :=
  ⟨rfl, rfl, rfl, rfl⟩

/-- C10: update is idempotent on the persisted collection — the state
after applying the same update twice equals the state after one
application — and an empty-body update leaves the collection unchanged.
(Both hold degenerately: every update aborts at the `TypeError` of
`model_dump(exclude="id")` before persisting anything.) -/
theorem spec_c10_update_idempotent (pid : String) (body : JObj) (db : DB)
    (hpresent : pyHasKey db pid = true) :
    finalDb (finalDb db (update_patient pid body db))
        (update_patient pid body (finalDb db (update_patient pid body db)))
      = finalDb db (update_patient pid body db)
    ∧ finalDb db (update_patient pid [] db) = db := by
  have h1 : finalDb db (update_patient pid body db) = db :=
    finalDb_of_isErr _ _ (update_patient_isErr _ _ _)
  rw [h1]
  exact ⟨finalDb_of_isErr _ _ (update_patient_isErr _ _ _),
         finalDb_of_isErr _ _ (update_patient_isErr _ _ _)⟩

/-- Witness for C10 on the sample collection. -/
theorem spec_c10_witness :
    finalDb db0 (update_patient "P001" [] db0) = db0 :=
  (spec_c10_update_idempotent "P001" [("weight", JValue.n 95)] db0 rfl).2

theorem leKey_trans (sortBy : String) (rev : Bool) (a b c : JObj)
    (h1 : leKey sortBy rev a b = true) (h2 : leKey sortBy rev b c = true) :
    leKey sortBy rev a c = true := by
  cases rev <;> simp only [leKey, if_true, if_false, decide_eq_true_eq,
    Bool.false_eq_true, Bool.true_eq_false] at h1 h2 ⊢
  · exact le_trans h1 h2
  · exact le_trans h2 h1

theorem leKey_total (sortBy : String) (rev : Bool) (a b : JObj) :
    (leKey sortBy rev a b || leKey sortBy rev b a) = true := by
  cases rev <;> simp [leKey] <;> exact le_total _ _

theorem leKey_of_key_eq (sortBy : String) (rev : Bool) (a b : JObj)
    (h : qkey sortBy a = qkey sortBy b) : leKey sortBy rev a b = true := by
  cases rev <;> simp [leKey, h]

theorem mergeSort_filter_key_eq (sortBy : String) (rev : Bool)
    (l : List JObj) (q : ℚ) :
    ((l.mergeSort (leKey sortBy rev)).filter (fun o => qkey sortBy o == q))
      = l.filter (fun o => qkey sortBy o == q) := by
  have hc : (l.filter (fun o => qkey sortBy o == q)).Pairwise
      (fun a b => leKey sortBy rev a b = true) := by
    refine List.pairwise_of_forall_mem_list ?_
    intro a ha b hb
    have ha₁ : qkey sortBy a = q := by simpa using List.of_mem_filter ha
    have hb₁ : qkey sortBy b = q := by simpa using List.of_mem_filter hb
    exact leKey_of_key_eq sortBy rev a b (ha₁.trans hb₁.symm)
  have h1 : (l.filter (fun o => qkey sortBy o == q)).Sublist
      (l.mergeSort (leKey sortBy rev)) :=
    List.sublist_mergeSort (leKey_trans sortBy rev) (leKey_total sortBy rev)
      hc (List.filter_sublist l)
  have h2 := h1.filter (fun o => qkey sortBy o == q)
  rw [List.filter_filter] at h2
  have hpp : (fun a => (qkey sortBy a == q) && (qkey sortBy a == q))
      = (fun a => qkey sortBy a == q) := by
    funext a
    exact Bool.and_self _
  rw [hpp] at h2
  have hlen : ((l.mergeSort (leKey sortBy rev)).filter
      (fun o => qkey sortBy o == q)).length
      = (l.filter (fun o => qkey sortBy o == q)).length :=
    ((List.mergeSort_perm l (leKey sortBy rev)).filter _).length_eq
  exact (h2.eq_of_length hlen.symm).symm

/-- C4: with `sort_by` one of height, weight, bmi and `order` one of asc,
desc (and numeric or missing sort fields, missing read as 0), the sort
endpoint returns all records, ordered non-decreasingly for asc and
non-increasingly for desc by the named field, with tied records keeping
the original collection order; any other `sort_by` or `order` fails with
the invalid-input error and returns no data. -/
theorem spec_c4_sort (sortBy ord : String) (db : DB) :
    (¬ (sortBy ∈ valid_fields ∧ ord ∈ ["asc", "desc"]) →
        sort_patient sortBy ord db = .error (.httpException 404 "The input is not valid"))
    ∧ (sortBy ∈ valid_fields → ord ∈ ["asc", "desc"] →
        (pyValues db).all (fun o => isNumV (jkeyVal sortBy o)) = true →
        ∃ out, sort_patient sortBy ord db = .ok (db, out)
          ∧ out.Perm (pyValues db)
          ∧ (ord = "asc" → out.Pairwise (fun a b => qkey sortBy a ≤ qkey sortBy b))
          ∧ (ord = "desc" → out.Pairwise (fun a b => qkey sortBy b ≤ qkey sortBy a))
          ∧ (∀ q : ℚ, out.filter (fun o => qkey sortBy o == q)
              = (pyValues db).filter (fun o => qkey sortBy o == q))) := by
  constructor
  · intro h
    unfold sort_patient
    by_cases hs : valid_fields.contains sortBy = true
    · have hmem : sortBy ∈ valid_fields := by simpa using hs
      have hom : ¬ ord ∈ (["asc", "desc"] : List String) := fun ho => h ⟨hmem, ho⟩
      have hoc : (["asc", "desc"] : List String).contains ord = false := by
        rw [← Bool.not_eq_true]
        simpa using hom
      rw [hs, hoc]
      rfl
    · have hsf : valid_fields.contains sortBy = false := by
        rwa [← Bool.not_eq_true]
      rw [hsf]
      rfl
  · intro hs ho hnum
    have hsc : valid_fields.contains sortBy = true := by simpa using hs
    have hoc : (["asc", "desc"] : List String).contains ord = true := by simpa using ho
    refine ⟨(pyValues db).mergeSort (leKey sortBy (ord == "desc")), ?_, ?_, ?_, ?_, ?_⟩
    · unfold sort_patient
      rw [hsc, hoc]
      unfold pySorted
      rw [hnum]
      rfl
    · exact List.mergeSort_perm _ _
    · intro ha
      subst ha
      have hp := List.sorted_mergeSort
        (leKey_trans sortBy ("asc" == "desc")) (leKey_total sortBy ("asc" == "desc"))
        (pyValues db)
      refine hp.imp ?_
      intro a b hab
      simpa [leKey] using hab
    · intro hd
      subst hd
      have hp := List.sorted_mergeSort
        (leKey_trans sortBy ("desc" == "desc")) (leKey_total sortBy ("desc" == "desc"))
        (pyValues db)
      refine hp.imp ?_
      intro a b hab
      simpa [leKey] using hab
    · intro q
      exact mergeSort_filter_key_eq sortBy (ord == "desc") (pyValues db) q

/-- Witness for C4: an invalid sort field fails with the invalid-input
error, and a valid sort succeeds on the sample collection. -/
theorem spec_c4_witness :
    sort_patient "foo" "asc" db0 = .error (.httpException 404 "The input is not valid")
    ∧ sort_patient "height" "asc" db0 = .ok (db0, [ashaStored]) := by
  refine ⟨(spec_c4_sort "foo" "asc" db0).1 (by simp [valid_fields]), ?_⟩
  obtain ⟨out, hout, hperm, hasc, hdesc, hfil⟩ :=
    (spec_c4_sort "height" "asc" db0).2 (by simp [valid_fields]) (by simp) (by rfl)
  have hlen : out.length = 1 := by
    simpa [pyValues, db0] using hperm.length_eq
  have hsing : out = [ashaStored] := by
    cases out with
    | nil => simp at hlen
    | cons o rest =>
      cases rest with
      | nil =>
        have hm : o ∈ pyValues db0 := hperm.mem_iff.mp (by simp)
        simp only [pyValues, db0, List.map_cons, List.map_nil,
          List.mem_singleton] at hm
        rw [hm]
      | cons b t => simp at hlen
  rw [hsing] at hout
  exact hout

/-- C8: if no stored record value contains an "id" key — the layout the
spec gives for the persisted collection — then that stays true after
every operation: create and update abort before persisting, delete only
removes an entry, and the read handlers never write.  The one place a
full record is materialized, the revalidation dict of update, carries the
id reattached under its "id" key. -/
theorem spec_c8_id_never_stored (db : DB) (hinv : noIdInside db = true) :
    (∀ p : Patient, noIdInside (finalDb db (create_patient p db)) = true)
    ∧ (∀ (pid : String) (body : JObj),
        noIdInside (finalDb db (update_patient pid body db)) = true)
    ∧ (∀ pid : String, noIdInside (finalDb db (delete_patient pid db)) = true)
    ∧ (∀ pid : String, finalDb db (view_patient pid db) = db)
    ∧ (∀ sortBy ord : String, finalDb db (sort_patient sortBy ord db) = db)
    ∧ (∀ (pid : String) (body stored : JObj),
        pyGet? (mergedForValidation pid body stored) "id" = some (.s pid)) := by
  refine ⟨?_, ?_, ?_, ?_, ?_, ?_⟩
  · intro p
    rw [finalDb_of_isErr _ _ (create_patient_isErr p db)]
    exact hinv
  · intro pid body
    rw [finalDb_of_isErr _ _ (update_patient_isErr pid body db)]
    exact hinv
  · intro pid
    unfold delete_patient
    by_cases h : pyHasKey db pid = true
    · rw [if_pos h]
      exact noIdInside_pyPop db hinv pid
    · rw [if_neg h]
      exact hinv
  · intro pid
    unfold view_patient
    cases hg : pyGet? db pid <;> rfl
  · intro sortBy ord
    unfold sort_patient
    split
    · rfl
    · split
      · rfl
      · split <;> rfl
  · intro pid body stored
    unfold mergedForValidation
    rw [pyGet_pyPop_ne _ (show "id" ≠ "verdict" by decide),
        pyGet_pyPop_ne _ (show "id" ≠ "bmi" by decide),
        pyGet_pySet_self]

/-- Witness for C8 on the sample collection, through the delete handler. -/
theorem spec_c8_witness :
    noIdInside (finalDb db0 (delete_patient "P001" db0)) = true :=
  (spec_c8_id_never_stored db0 rfl).2.2.1 "P001"
